import Mathlib

/-!
Sandboxed Python execution tool — verification of the specification

Shallow embedding of `src/app/lib/tools/python-execution-tool.ts` (class
`PythonExecutionTool`) and the parts of `src/app/lib/tools/base-tool.ts` it
uses.  JavaScript strings are modelled as Lean `String`s (ASCII inputs),
`null`-able strings as `Option String`, process interaction as an explicit
event datatype, and the wall clock (`Date.now()`) as explicit numeric
parameters.  Promise rejection (a `throw` escaping `execute`) is modelled
with `Except String`.
-/

namespace Avilink

/-- JavaScript `\s` / `trim` whitespace, restricted to the ASCII range
(space, tab, line feed, carriage return, vertical tab, form feed). -/
def isJsSpace (c : Char) : Bool :=
  c = ' ' || c = '\t' || c = '\n' || c = '\r' || c = '\x0b' || c = '\x0c'

/-- Drop whitespace from both ends of a character list. -/
def trimChars (cs : List Char) : List Char :=
  ((cs.dropWhile isJsSpace).reverse.dropWhile isJsSpace).reverse

/-- JS `String.prototype.trim()` (ASCII whitespace). -/
def jsTrim (s : String) : String :=
  (trimChars s.toList).asString

/-- JS `String.prototype.indexOf(pat)` for a non-empty `pat`:
`some i` is the first character index where `pat` occurs, `none` plays the
role of `-1`. -/
def jsIndexOf (s pat : String) : Option Nat :=
  (List.range (s.length + 1)).find? fun i => pat.toList.isPrefixOf (s.toList.drop i)

/-- JS `String.prototype.substring(a, b)` for non-negative arguments:
both indices are clamped to the string length and swapped when `a > b`. -/
def jsSubstring (s : String) (a b : Nat) : String :=
  let n := s.length
  let a' := min a n
  let b' := min b n
  let lo := min a' b'
  let hi := max a' b'
  ((s.toList.drop lo).take (hi - lo)).asString

/-- Function `parseOutput` (python-execution-tool.ts, lines 227-239): locate the
output sentinels and return the trimmed text delimited by them; when either
sentinel is absent, return the whole input trimmed. -/
def parseOutput (output : String) : String :=
  let startMarker := "AVILINK_OUTPUT_START"
  let endMarker := "AVILINK_OUTPUT_END"
  match jsIndexOf output startMarker, jsIndexOf output endMarker with
  | some startIndex, some endIndex =>
      jsTrim (jsSubstring output (startIndex + startMarker.length) endIndex)
  | _, _ => jsTrim output

/-- Function `parseError` (python-execution-tool.ts, lines 241-253): same scheme with
the error sentinels; the fallback `error.trim() || null` maps a trimmed empty
string to `null`. -/
def parseError (error : String) : Option String :=
  let startMarker := "AVILINK_ERROR_START"
  let endMarker := "AVILINK_ERROR_END"
  match jsIndexOf error startMarker, jsIndexOf error endMarker with
  | some startIndex, some endIndex =>
      some (jsTrim (jsSubstring error (startIndex + startMarker.length) endIndex))
  | _, _ => let t := jsTrim error; if t == "" then none else some t

/-- A denylist regex shape.  Every pattern of `containsUnsafeOperations` is a
literal, a literal then `\s+` then a literal, or a literal then `\s*` then a
literal. -/
inductive Pat
  | exact (a : String)
  | seqPlus (a b : String)
  | seqStar (a b : String)

/-- Match literal `a` at the head of `cs`, returning the rest on success. -/
def matchLit (a : String) (cs : List Char) : Option (List Char) :=
  if a.toList.isPrefixOf cs then some (cs.drop a.toList.length) else none

/-- Does pattern `p` match starting exactly at `cs`?  The greedy treatment of
`\s+` / `\s*` coincides with regex backtracking here because the trailing
literal of every denylist pattern starts with a non-whitespace character. -/
def matchPatAt (p : Pat) (cs : List Char) : Bool :=
  match p with
  | Pat.exact a => a.toList.isPrefixOf cs
  | Pat.seqPlus a b =>
      match matchLit a cs with
      | none => false
      | some rest =>
          match rest with
          | [] => false
          | c :: rest' => isJsSpace c && b.toList.isPrefixOf (rest'.dropWhile isJsSpace)
  | Pat.seqStar a b =>
      match matchLit a cs with
      | none => false
      | some rest => b.toList.isPrefixOf (rest.dropWhile isJsSpace)

/-- The fixed denylist of `containsUnsafeOperations`
(python-execution-tool.ts, lines 57-70), pattern by pattern. -/
def unsafePatterns : List Pat :=
  [ Pat.seqPlus "import" "os"
  , Pat.seqPlus "import" "subprocess"
  , Pat.seqPlus "import" "sys"
  , Pat.seqPlus "from" "os"
  , Pat.seqPlus "from" "subprocess"
  , Pat.seqStar "exec" "("
  , Pat.seqStar "eval" "("
  , Pat.exact "__import__"
  , Pat.seqStar "open" "("
  , Pat.seqStar "file" "("
  , Pat.seqStar "input" "("
  , Pat.seqStar "raw_input" "(" ]

/-- Function `containsUnsafeOperations` (python-execution-tool.ts, lines 56-73):
`unsafePatterns.some(pattern => pattern.test(code))`, where `test` looks for
a match at any start position. -/
def containsUnsafeOperations (code : String) : Bool :=
  unsafePatterns.any fun p => code.toList.tails.any (matchPatAt p)

/-- Result value produced by the tool (interface `PythonExecutionResult`). -/
inductive Status
  | success
  | error
  | timeout
deriving DecidableEq, Repr

structure PythonExecutionResult where
  code : String
  output : String
  error : Option String
  execution_time : Nat
  status : Status
deriving DecidableEq, Repr

/-- JS truthiness test for a `string | null` value: `null` and `""` are falsy. -/
def jsFalsyOpt (o : Option String) : Bool :=
  o == none || o == some ""

/-- JS `x || null` on a `string | null` value: collapse `""` to `null`. -/
def errOrNone (o : Option String) : Option String :=
  if o == some "" then none else o

/-- How the spawned interpreter process resolves, as observed by the
handlers installed in `runPythonProcess`: either the `close` event fires
(with the `timedOut` flag as set by the deadline timer, the exit code, and
the drained stdout/stderr), or the `error` event fires (spawn failure). -/
inductive ProcEvent
  | close (timedOut : Bool) (exitCode : Option Int) (stdout stderr : String)
  | errored (msg : String)
deriving DecidableEq, Repr

/-- Function `runPythonProcess` (python-execution-tool.ts, lines 160-225).  When
`captureOutput` is false no stream handlers are installed, so the
accumulated `output`/`error` strings stay empty. -/
def runPythonProcess (timeout : Nat) (captureOutput : Bool) (ev : ProcEvent) :
    PythonExecutionResult :=
  match ev with
  | ProcEvent.close timedOut exitCode stdout stderr =>
      let output := if captureOutput then stdout else ""
      let error := if captureOutput then stderr else ""
      if timedOut then
        { code := "", output := "", error := some "Execution timed out"
        , execution_time := timeout * 1000, status := Status.timeout }
      else
        let cleanOutput := parseOutput output
        let cleanError := parseError error
        { code := "", output := cleanOutput, error := errOrNone cleanError
        , execution_time := 0
        , status := if (exitCode == some 0) && jsFalsyOpt cleanError
                    then Status.success else Status.error }
  | ProcEvent.errored msg =>
      { code := "", output := "", error := some ("Process error: " ++ msg)
      , execution_time := 0, status := Status.error }

/-- Temp-script path (python-execution-tool.ts, lines 76-77):
join of the fixed temp directory with the name built from
`Date.now()`, a pure function of the millisecond clock sample. -/
def tempFilePath (now : Nat) : String :=
  "/tmp/avilink-python/script_" ++ toString now ++ ".py"

/-- Observable side-effecting step of `executePythonCode`, in program order:
the `mkdir -p` spawn of `ensureTempDir`, the `writeFile` of the wrapped
script, the spawn of the python3 interpreter, and the `unlink` attempt of
the `finally` block. -/
inductive ExecStep
  | ensureDir (dir : String)
  | writeTemp (path : String)
  | spawnPython (path : String)
  | unlinkTemp (path : String)
deriving DecidableEq, Repr

/-- Count of interpreter (`python3`) spawns in a step trace. -/
def spawnCount (steps : List ExecStep) : Nat :=
  steps.countP fun s => match s with
    | ExecStep.spawnPython _ => true
    | _ => false

/-- Environment a single `executePythonCode` call runs against: the
`Date.now()` sample used for the temp-file name, the exit code of the
`mkdir -p` child (`ensureTempDir` rejects unless it is 0), whether
`writeFile` throws (and with what message), how the interpreter process
resolves, and the measured `Date.now() - executionStart` difference. -/
structure RunEnv where
  now : Nat
  mkdirExit : Option Int
  writeErr : Option String
  procEvent : ProcEvent
  elapsedMs : Nat
deriving DecidableEq, Repr

/-- JS string interpolation of a `number | null` exit code. -/
def jsShowExit : Option Int → String
  | none => "null"
  | some n => toString n

/-- Function `executePythonCode` (python-execution-tool.ts, lines 75-116), together
with the trace of its side-effecting steps.  The `try`/`catch` turns any
thrown error into an error-status result with zero execution time; the
`finally` always attempts `unlink(tempFile)` (a failing unlink is caught and
only logged), so every branch ends the trace with the unlink attempt.  On
the normal path the result of the runner is spread and its `code` and
`execution_time` fields are overwritten with the submitted source and the
measured duration. -/
def executePythonCode (code : String) (timeout : Nat) (captureOutput : Bool)
    (env : RunEnv) : PythonExecutionResult × List ExecStep :=
  let tempFile := tempFilePath env.now
  if env.mkdirExit != some 0 then
    ({ code := code, output := ""
     , error := some ("Failed to create directory: " ++ jsShowExit env.mkdirExit)
     , execution_time := 0, status := Status.error },
     [ExecStep.ensureDir "/tmp/avilink-python", ExecStep.unlinkTemp tempFile])
  else
    match env.writeErr with
    | some msg =>
        ({ code := code, output := "", error := some msg
         , execution_time := 0, status := Status.error },
         [ExecStep.ensureDir "/tmp/avilink-python", ExecStep.writeTemp tempFile,
          ExecStep.unlinkTemp tempFile])
    | none =>
        let result := runPythonProcess timeout captureOutput env.procEvent
        ({ result with code := code, execution_time := env.elapsedMs },
         [ExecStep.ensureDir "/tmp/avilink-python", ExecStep.writeTemp tempFile,
          ExecStep.spawnPython tempFile, ExecStep.unlinkTemp tempFile])

/-- State of the Python interpreter while the wrapper script runs:
what has been written to real standard output, the contents of the
`StringIO` buffer, and whether `sys.stdout` currently points at the buffer. -/
structure PyState where
  realStdout : String
  buffer : String
  redirected : Bool
deriving DecidableEq, Repr

/-- Python `print(s)`: appends `s` and a newline to whatever `sys.stdout`
currently designates. -/
def pyPrint (s : String) (st : PyState) : PyState :=
  if st.redirected then { st with buffer := st.buffer ++ s ++ "\n" }
  else { st with realStdout := st.realStdout ++ s ++ "\n" }

/-- Semantics of the script generated by `wrapCodeWithSafety`
(python-execution-tool.ts, lines 129-158) for a user program that prints
the given strings and finishes without raising, following the generated
Python line by line: `sys.stdout = StringIO()` (redirect on), the user
prints, `output = sys.stdout.getvalue()`, the three sentinel `print`s
(executed while `sys.stdout` is still the buffer, since the restore sits in
the `finally` block after them), and finally `sys.stdout = old_stdout`.
Returns what the process actually wrote to real standard output. -/
def runWrappedScript (userPrints : List String) : String :=
  let st0 : PyState := { realStdout := "", buffer := "", redirected := true }
  let st1 := userPrints.foldl (fun st s => pyPrint s st) st0
  let output := st1.buffer
  let st2 := pyPrint "AVILINK_OUTPUT_START" st1
  let st3 := pyPrint output st2
  let st4 := pyPrint "AVILINK_OUTPUT_END" st3
  let st5 := { st4 with redirected := false }
  st5.realStdout

/-- Parameter object of the tool: `code`, `timeout`, `capture_output`, each
possibly absent/`undefined`. -/
structure Params where
  code : Option String
  timeout : Option Nat
  capture_output : Option Bool
deriving DecidableEq, Repr

/-- Is the named parameter present (and not `undefined`)? -/
def paramPresent (p : Params) (k : String) : Bool :=
  if k = "code" then p.code.isSome
  else if k = "timeout" then p.timeout.isSome
  else if k = "capture_output" then p.capture_output.isSome
  else false

/-- Function `validateParameters` (base-tool.ts, lines 20-26), specialised to this
parameter object: the required names whose value is missing. -/
def missingParams (p : Params) (required : List String) : List String :=
  required.filter fun k => !(paramPresent p k)

/-- Persistence environment of `logExecution`: whether the `user.upsert`
and the `codeExecution.create` calls fail (with which message). -/
structure DbEnv where
  upsertErr : Option String
  createErr : Option String
deriving DecidableEq, Repr

/-- Outcome of `logExecution` (python-execution-tool.ts, lines 255-282):
either both Prisma calls succeeded, or the `catch` swallowed the failure
and reported it via `console.error`.  `skipped` marks call paths of
`execute` that never reach the logger.  There is no outcome that
propagates an exception: the `try`/`catch` encloses the whole body. -/
inductive LogResult
  | skipped
  | logged
  | caught (msg : String)
deriving DecidableEq, Repr

/-- Function `logExecution`: run `upsert` then `create`, catching any failure. -/
def logExecution (db : DbEnv) : LogResult :=
  match db.upsertErr with
  | some e => LogResult.caught e
  | none =>
      match db.createErr with
      | some e => LogResult.caught e
      | none => LogResult.logged

/-- The object `execute` resolves with (python-execution-tool.ts,
lines 48-53): `success`, `data`, `error` (only set for the error status,
with `result.error || undefined`), and the outer measured time. -/
structure ExecuteReturn where
  success : Bool
  data : PythonExecutionResult
  error : Option String
  executionTime : Nat
deriving DecidableEq, Repr

/-- Full observable outcome of one `execute` call: the resolved value or
the thrown error message, the side-effect trace, and the logger outcome. -/
structure ExecuteOutcome where
  ret : Except String ExecuteReturn
  steps : List ExecStep
  log : LogResult
deriving Repr

/-- Function `execute` (python-execution-tool.ts, lines 26-54).  The body runs inside
`measureExecutionTime`, which catches nothing, so the validation throw and
the safety throw escape as rejections (`Except.error`).  Otherwise the code
is executed, logged (the logger cannot throw), and the result object is
built; `outerMs` is the outer `Date.now()` difference. -/
def execute (p : Params) (env : RunEnv) (outerMs : Nat) (db : DbEnv) :
    ExecuteOutcome :=
  match p.code with
  | none =>
      { ret := Except.error ("Missing required parameters: " ++
          String.intercalate ", " (missingParams p ["code"]))
      , steps := [], log := LogResult.skipped }
  | some code =>
      if containsUnsafeOperations code then
        { ret := Except.error "Code contains potentially unsafe operations"
        , steps := [], log := LogResult.skipped }
      else
        let timeout := p.timeout.getD 30
        let cap := p.capture_output.getD true
        let er := executePythonCode code timeout cap env
        let lg := logExecution db
        { ret := Except.ok
            { success := er.1.status == Status.success
            , data := er.1
            , error := if er.1.status == Status.error then errOrNone er.1.error
                       else none
            , executionTime := outerMs }
        , steps := er.2, log := lg }

/-- Did the deadline timer fire before the process resolved (the `timedOut`
flag observed by the `close` handler)?  The `error` event handler never
consults the flag. -/
def evTimedOut : ProcEvent → Bool
  | ProcEvent.close t _ _ _ => t
  | ProcEvent.errored _ => false

/-- Did the process exit with code zero (`code === 0`)? -/
def evExitedZero : ProcEvent → Bool
  | ProcEvent.close _ c _ _ => c == some 0
  | ProcEvent.errored _ => false

/-- Characters of `s` from position `a` (inclusive) to `b` (exclusive). -/
def betweenText (s : String) (a b : Nat) : String :=
  ((s.toList.drop a).take (b - a)).asString

/-- Declarative description (following the amended wording of the claim
about the extraction routines) of what `parseOutput` computes: with both
sentinels present and the start sentinel ending at or before the end
sentinel, the trimmed text strictly between them; with the end occurrence
preceding the start occurrence, the trimmed span between the two indices
taken in reverse order (the JS `substring` argument swap); otherwise the
whole input trimmed.  The output start sentinel is 20 characters long. -/
def parseOutputSpec (s : String) : String :=
  match jsIndexOf s "AVILINK_OUTPUT_START", jsIndexOf s "AVILINK_OUTPUT_END" with
  | some si, some ei =>
      if si + 20 ≤ ei then jsTrim (betweenText s (si + 20) ei)
      else jsTrim (betweenText s ei (si + 20))
  | _, _ => jsTrim s

/-- Declarative description of `parseError`, as `parseOutputSpec` but with
the 19-character error start sentinel, and `none` when no sentinel pair is
found and the trimmed input is empty. -/
def parseErrorSpec (s : String) : Option String :=
  match jsIndexOf s "AVILINK_ERROR_START", jsIndexOf s "AVILINK_ERROR_END" with
  | some si, some ei =>
      if si + 19 ≤ ei then some (jsTrim (betweenText s (si + 19) ei))
      else some (jsTrim (betweenText s ei (si + 19)))
  | _, _ => if jsTrim s == "" then none else some (jsTrim s)

/-- A persistence environment in which both Prisma calls succeed. -/
def db0 : DbEnv := { upsertErr := none, createErr := none }

/-- A benign run environment: directory creation succeeds, the write
succeeds, the process closes promptly with exit code zero and silent
streams. -/
def env0 : RunEnv :=
  { now := 1712345678901, mkdirExit := some 0, writeErr := none
  , procEvent := ProcEvent.close false (some 0) "" "", elapsedMs := 5 }

/-- Run environment of the round-trip scenario: the interpreter runs the
wrapped `print("hello")` script to completion (exit code zero, before the
deadline), so its real standard output is exactly what `runWrappedScript`
computes. -/
def c1env : RunEnv :=
  { now := 1712345678901, mkdirExit := some 0, writeErr := none
  , procEvent := ProcEvent.close false (some 0) (runWrappedScript ["hello"]) ""
  , elapsedMs := 12 }

/-- Run environment of a timed-out execution: the deadline timer fired, the
process was killed, the `close` event reported a `null` exit code, and the
measured wall-clock duration came out at 1042 ms. -/
def c3env : RunEnv :=
  { now := 1712345678901, mkdirExit := some 0, writeErr := none
  , procEvent := ProcEvent.close true none "" "", elapsedMs := 1042 }

/-- Captured output in which the end sentinel precedes the start sentinel. -/
def c6bad : String := "AVILINK_OUTPUT_ENDabcAVILINK_OUTPUT_START"

example : runWrappedScript ["hello"] = "" := by decide

example : containsUnsafeOperations "import os" = true := by decide

example : containsUnsafeOperations "import  \t sys" = true := by decide

example : containsUnsafeOperations "print(123)" = false := by decide

example : containsUnsafeOperations "x = eval (y)" = true := by decide

example : parseOutput "AVILINK_OUTPUT_START\nhello\n\nAVILINK_OUTPUT_END\n" = "hello" := by decide

example : parseOutput "junk with no markers " = "junk with no markers" := by decide

example : parseError "" = none := by decide

example : parseError " boom " = some "boom" := by decide

theorem prefixOf_length_le :
    ∀ (a b : List Char), a.isPrefixOf b = true → a.length ≤ b.length
  | [], _, _ => Nat.zero_le _
  | _ :: _, [], h => by simp [List.isPrefixOf] at h
  | a :: as, b :: bs, h => by
      simp only [List.isPrefixOf, Bool.and_eq_true] at h
      exact Nat.succ_le_succ (prefixOf_length_le as bs h.2)

/-- A found occurrence of `pat` fits inside `s`. -/
theorem jsIndexOf_add_length_le {s pat : String} {i : Nat}
    (h : jsIndexOf s pat = some i) : i + pat.length ≤ s.length := by
  unfold jsIndexOf at h
  have hmem := List.mem_of_find?_eq_some h
  have hpred := List.find?_some h
  have hlen := prefixOf_length_le _ _ hpred
  rw [List.length_drop] at hlen
  have hi : i < s.length + 1 := List.mem_range.mp hmem
  have hp : pat.toList.length = pat.length := rfl
  have hs : s.toList.length = s.length := rfl
  omega

/-- With both endpoints in range, `jsSubstring` is the text between the two
indices taken in increasing order. -/
theorem jsSubstring_eq_betweenText (s : String) (a b : Nat)
    (ha : a ≤ s.length) (hb : b ≤ s.length) :
    jsSubstring s a b = if a ≤ b then betweenText s a b else betweenText s b a := by
  unfold jsSubstring betweenText
  by_cases hab : a ≤ b
  · simp [hab, Nat.min_eq_left ha, Nat.min_eq_left hb, Nat.min_eq_left hab,
      Nat.max_eq_right hab]
  · have hba : b ≤ a := Nat.le_of_not_le hab
    simp [hab, Nat.min_eq_left ha, Nat.min_eq_left hb, Nat.min_eq_right hba,
      Nat.max_eq_left hba]

/-- The JS truthiness test used for the status decision agrees with the
`null`-collapse used for the error field. -/
theorem jsFalsyOpt_iff_errOrNone (o : Option String) :
    jsFalsyOpt o = true ↔ errOrNone o = none := by
  cases o with
  | none => simp [jsFalsyOpt, errOrNone]
  | some s =>
      by_cases hs : s = "" <;>
        simp [jsFalsyOpt, errOrNone, hs]

/-- C1: the claim says a script printing "hello" that exits zero before
the deadline round-trips to `output == "hello"` with the sentinels emitted
on real standard output.  The code is wrong: the wrapper prints the
sentinels and the buffered output while `sys.stdout` is still redirected to
the in-memory buffer (the restore sits in the `finally` block after those
prints), so the real standard output of the process is empty and the whole
pipeline returns `output == ""` (status "success", error null) instead of
"hello".  This theorem evaluates the model at the failing input. -/
theorem c1_wrapper_loses_hello_output :
    runWrappedScript ["hello"] = ""
    ∧ (execute { code := some "print(\"hello\")", timeout := some 30
               , capture_output := some true } c1env 15 db0).ret =
        Except.ok { success := true
                  , data := { code := "print(\"hello\")", output := ""
                            , error := none, execution_time := 12
                            , status := Status.success }
                  , error := none, executionTime := 15 }
    ∧ ("" : String) ≠ "hello" :=
  ⟨rfl, rfl, by decide⟩

/-- C3 counterexample: in a run whose deadline elapsed first (configured
timeout 1 s) the returned result has status "timeout" but its
`execution_time` is the measured wall-clock duration (here 1042 ms), not
the configured timeout converted to milliseconds: `executePythonCode`
overwrites the 1000 ms value the Process Runner put in the result. -/
theorem c3_duration_is_measured_not_configured :
    (executePythonCode "while True: pass" 1 true c3env).1.status = Status.timeout
    ∧ (executePythonCode "while True: pass" 1 true c3env).1.execution_time = 1042
    ∧ (1042 : Nat) ≠ 1 * 1000 :=
  ⟨rfl, rfl, by decide⟩

/-- C3 amended: when the deadline elapses before process exit (and the
temp directory and file were set up), the returned result has status
exactly "timeout", empty output, an error text reporting the timeout, and
`execution_time` equal to the measured wall-clock duration of the run (the
runner-internal value `timeout * 1000` is overwritten by the spread in
`executePythonCode`). -/
theorem c3_timeout_result_amended (code : String) (timeout : Nat) (cap : Bool)
    (env : RunEnv) (c : Option Int) (out err : String)
    (hmk : env.mkdirExit = some 0) (hw : env.writeErr = none)
    (hev : env.procEvent = ProcEvent.close true c out err) :
    (executePythonCode code timeout cap env).1 =
      { code := code, output := "", error := some "Execution timed out"
      , execution_time := env.elapsedMs, status := Status.timeout } := by
  simp [executePythonCode, hmk, hw, hev, runPythonProcess]

/-- Witness for the amended C3 theorem at a concrete environment. -/
theorem c3_timeout_result_amended_witness :
    (executePythonCode "while True: pass" 1 true c3env).1 =
      { code := "while True: pass", output := ""
      , error := some "Execution timed out"
      , execution_time := 1042, status := Status.timeout } :=
  c3_timeout_result_amended "while True: pass" 1 true c3env none "" "" rfl rfl rfl

/-- C7: on every exit path of `executePythonCode` — directory-creation
failure, write failure, or a completed/timed-out/failed process — the last
side-effecting step of the call is the attempt to unlink the temporary
script file (the `finally` block). -/
theorem c7_cleanup_attempted_on_every_path (code : String) (timeout : Nat)
    (cap : Bool) (env : RunEnv) :
    (executePythonCode code timeout cap env).2.getLast? =
      some (ExecStep.unlinkTemp (tempFilePath env.now)) := by
  unfold executePythonCode
  split
  · rfl
  · split <;> rfl

/-- C9: the temporary script path is a function of the `Date.now()`
millisecond sample alone, so two concurrent invocations that sample the
same millisecond generate the same path (evaluated at the failing input:
both invocations at millisecond 1712345678901 write to the same file). -/
theorem c9_same_millisecond_invocations_collide :
    tempFilePath 1712345678901 = "/tmp/avilink-python/script_1712345678901.py"
    ∧ tempFilePath 1712345678901 = tempFilePath 1712345678901 :=
  ⟨rfl, rfl⟩

/-- C2: for every way the Process Runner can resolve, the result status is
"timeout" exactly when the deadline timer fired before process exit
(forcing the kill); it is "success" exactly when the process exited with
code zero and the error field of the parsed result is null; in every other
case it is "error". -/
theorem c2_status_invariant (timeout : Nat) (cap : Bool) (ev : ProcEvent) :
    ((runPythonProcess timeout cap ev).status = Status.timeout ↔ evTimedOut ev = true)
    ∧ ((runPythonProcess timeout cap ev).status = Status.success ↔
        (evTimedOut ev = false ∧ evExitedZero ev = true
          ∧ (runPythonProcess timeout cap ev).error = none))
    ∧ ((runPythonProcess timeout cap ev).status = Status.error ↔
        (evTimedOut ev = false ∧ ¬(evExitedZero ev = true
          ∧ (runPythonProcess timeout cap ev).error = none))) := by
  cases ev with
  | errored msg =>
      simp [runPythonProcess, evTimedOut, evExitedZero]
  | close t c out err =>
      cases t with
      | true => simp [runPythonProcess, evTimedOut, evExitedZero]
      | false =>
          have hfe := jsFalsyOpt_iff_errOrNone (parseError (if cap then err else ""))
          simp only [runPythonProcess, evTimedOut, evExitedZero, Bool.false_eq_true,
            if_false]
          cases hc : (c == some 0) with
          | false =>
              cases hf : jsFalsyOpt (parseError (if cap then err else "")) <;>
                simp_all
          | true =>
              cases hf : jsFalsyOpt (parseError (if cap then err else "")) <;>
                simp_all

/-- C4 counterexample: for the denylisted source "import os ..." the
`execute` call does not return a result at all — the safety check throws,
so the promise rejects (`ret.isOk = false`), contradicting the claim that a
result with status "error" is returned.  The no-spawn half of the claim
does hold (the step trace is empty). -/
theorem c4_denylisted_source_throws :
    containsUnsafeOperations "import os\nos.system(x)" = true
    ∧ (execute { code := some "import os\nos.system(x)", timeout := none
               , capture_output := none } env0 3 db0).ret.isOk = false
    ∧ spawnCount (execute { code := some "import os\nos.system(x)"
                          , timeout := none
                          , capture_output := none } env0 3 db0).steps = 0 := by
  decide

/-- C4 amended: for every source matching a denylisted pattern, `execute`
rejects by throwing the fixed safety error before anything runs: the call
yields that thrown error and an empty side-effect trace, so no interpreter
process (indeed no process at all) is spawned. -/
theorem c4_denylisted_rejected_before_spawn (p : Params) (env : RunEnv)
    (outerMs : Nat) (db : DbEnv) (code : String) (hc : p.code = some code)
    (hu : containsUnsafeOperations code = true) :
    (execute p env outerMs db).ret =
        Except.error "Code contains potentially unsafe operations"
    ∧ (execute p env outerMs db).steps = [] := by
  obtain ⟨pc, pt, pco⟩ := p
  simp only at hc
  subst hc
  simp [execute, hu]

/-- Witness for the amended C4 theorem at a concrete denylisted source. -/
theorem c4_denylisted_rejected_before_spawn_witness :
    (execute { code := some "import os\nos.system(x)", timeout := none
             , capture_output := none } env0 3 db0).ret =
        Except.error "Code contains potentially unsafe operations"
    ∧ (execute { code := some "import os\nos.system(x)", timeout := none
               , capture_output := none } env0 3 db0).steps = [] :=
  c4_denylisted_rejected_before_spawn _ env0 3 db0 "import os\nos.system(x)"
    rfl (by decide)

/-- C5 counterexample: a request whose source text is the empty string is
not rejected — `validateParameters` only checks that the `code` key is
present and not undefined, so the empty source passes validation, no
validation error is thrown (`ret.isOk = true`), and an interpreter process
is spawned. -/
theorem c5_empty_source_is_executed :
    (execute { code := some "", timeout := none, capture_output := none }
        env0 4 db0).ret.isOk = true
    ∧ spawnCount (execute { code := some "", timeout := none
                          , capture_output := none } env0 4 db0).steps = 1 := by
  decide

/-- C5 amended: only a request whose source text is missing (absent or
undefined) is rejected before any process is spawned, via a synchronously
thrown validation error and with an empty side-effect trace; an empty
source string passes validation and is executed. -/
theorem c5_missing_source_rejected_before_spawn (p : Params) (env : RunEnv)
    (outerMs : Nat) (db : DbEnv) (hc : p.code = none) :
    (execute p env outerMs db).ret =
        Except.error "Missing required parameters: code"
    ∧ (execute p env outerMs db).steps = [] := by
  obtain ⟨pc, pt, pco⟩ := p
  simp only at hc
  subst hc
  exact ⟨rfl, rfl⟩

/-- Witness for the amended C5 theorem at a concrete parameter object. -/
theorem c5_missing_source_rejected_before_spawn_witness :
    (execute { code := none, timeout := none, capture_output := none }
        env0 4 db0).ret = Except.error "Missing required parameters: code"
    ∧ (execute { code := none, timeout := none, capture_output := none }
        env0 4 db0).steps = [] :=
  c5_missing_source_rejected_before_spawn _ env0 4 db0 rfl

/-- C8: the resolved value and the side-effect trace of `execute` do not
depend on the persistence environment: whether the Prisma calls inside
`logExecution` succeed or fail (the failure is caught and reported through
`console.error` only), the caller receives the same result. -/
theorem c8_logging_failure_never_propagates (p : Params) (env : RunEnv)
    (outerMs : Nat) (db1 db2 : DbEnv) :
    (execute p env outerMs db1).ret = (execute p env outerMs db2).ret
    ∧ (execute p env outerMs db1).steps = (execute p env outerMs db2).steps := by
  obtain ⟨pc, pt, pco⟩ := p
  cases pc with
  | none => exact ⟨rfl, rfl⟩
  | some code =>
      cases hu : containsUnsafeOperations code <;> simp [execute, hu]

/-- C10: a process that exits zero before the deadline but wrote
non-whitespace text (with no error sentinel pair) to standard error yields
status "error" with the trimmed stderr text as the error — interpreter
warnings on stderr alone flip an otherwise successful run. -/
theorem c10_stderr_alone_forces_error (timeout : Nat) (stdout stderr : String)
    (h1 : jsIndexOf stderr "AVILINK_ERROR_START" = none
        ∨ jsIndexOf stderr "AVILINK_ERROR_END" = none)
    (h2 : jsTrim stderr ≠ "") :
    (runPythonProcess timeout true
        (ProcEvent.close false (some 0) stdout stderr)).status = Status.error
    ∧ (runPythonProcess timeout true
        (ProcEvent.close false (some 0) stdout stderr)).error
        = some (jsTrim stderr) := by
  have hbeq : (jsTrim stderr == "") = false := by
    simpa using h2
  have hp : parseError stderr = some (jsTrim stderr) := by
    unfold parseError
    rcases h1 with h | h
    · simp [h, hbeq]
    · cases hfirst : jsIndexOf stderr "AVILINK_ERROR_START" <;>
        simp [hfirst, h, hbeq]
  simp [runPythonProcess, hp, jsFalsyOpt, errOrNone, hbeq]

/-- Witness for the C10 theorem at a concrete warning text. -/
theorem c10_stderr_alone_forces_error_witness :
    (runPythonProcess 30 true (ProcEvent.close false (some 0) "ok"
        "DeprecationWarning: x")).status = Status.error
    ∧ (runPythonProcess 30 true (ProcEvent.close false (some 0) "ok"
        "DeprecationWarning: x")).error = some (jsTrim "DeprecationWarning: x") :=
  c10_stderr_alone_forces_error 30 "ok" "DeprecationWarning: x"
    (Or.inl (by decide)) (by decide)

/-- C6 counterexample: on input where both sentinels occur but the end
sentinel precedes the start sentinel, `parseOutput` does not return the
trimmed substring between them ("abc"): the JS `substring` swaps its
arguments and the routine returns the entire input, sentinels included. -/
theorem c6_reversed_sentinels_return_whole_input :
    (jsIndexOf c6bad "AVILINK_OUTPUT_START").isSome = true
    ∧ (jsIndexOf c6bad "AVILINK_OUTPUT_END").isSome = true
    ∧ parseOutput c6bad = c6bad
    ∧ c6bad ≠ "abc" := by
  decide

/-- C6 amended: both extraction routines are total and equal their
declarative descriptions: with both sentinels present and the start
occurrence ending at or before the end occurrence, the trimmed text
strictly between them; with the occurrences reversed, the trimmed span
between the two indices in reverse order (which can include the sentinels
themselves); with either sentinel absent, the whole input trimmed — and,
for the error extractor, null when that trimmed fallback text is empty. -/
theorem c6_extraction_matches_amended_description (s : String) :
    parseOutput s = parseOutputSpec s ∧ parseError s = parseErrorSpec s := by
  constructor
  · unfold parseOutput parseOutputSpec
    cases h1 : jsIndexOf s "AVILINK_OUTPUT_START" with
    | none => simp [h1]
    | some si =>
        cases h2 : jsIndexOf s "AVILINK_OUTPUT_END" with
        | none => simp [h1, h2]
        | some ei =>
            simp only [h1, h2]
            have hb1 := jsIndexOf_add_length_le h1
            have hb2 := jsIndexOf_add_length_le h2
            have h20 : ("AVILINK_OUTPUT_START" : String).length = 20 := rfl
            have h18 : ("AVILINK_OUTPUT_END" : String).length = 18 := rfl
            rw [h20] at hb1
            rw [h18] at hb2
            rw [h20, jsSubstring_eq_betweenText s (si + 20) ei (by omega) (by omega)]
            by_cases hle : si + 20 ≤ ei <;> simp [hle]
  · unfold parseError parseErrorSpec
    cases h1 : jsIndexOf s "AVILINK_ERROR_START" with
    | none => simp [h1]
    | some si =>
        cases h2 : jsIndexOf s "AVILINK_ERROR_END" with
        | none => simp [h1, h2]
        | some ei =>
            simp only [h1, h2]
            have hb1 := jsIndexOf_add_length_le h1
            have hb2 := jsIndexOf_add_length_le h2
            have h19 : ("AVILINK_ERROR_START" : String).length = 19 := rfl
            have h17 : ("AVILINK_ERROR_END" : String).length = 17 := rfl
            rw [h19] at hb1
            rw [h17] at hb2
            rw [h19, jsSubstring_eq_betweenText s (si + 19) ei (by omega) (by omega)]
            by_cases hle : si + 19 ≤ ei <;> simp [hle]
